import Mathlib

/-!
Shallow embedding of the rawa backend's authentication and authorization core:
the auth controller (signup / login / verify-email / reset-password /
change-password), the user controller (createUser / updateUser / getUser /
getUsers), the role-check route gate, and the auth middleware, together with
the relevant parts of the database schema (User and EmailVerification tables).

External collaborators are abstracted as function parameters:
`hashPw` stands for bcrypt hashing, `verifyPw` for bcrypt comparison,
`emailOk` for zod's email-format validation, and `verifyJwt` for JWT
signature/expiry verification (returning the numeric subject id on success).
Mail dispatch is a side effect outside the database and is not modelled.
-/

namespace Rawa

/-- The role enum used throughout the controllers. -/
inductive Role
  | SUPER_ADMIN
  | ADMIN
  | DATA_ENTRY
  | FACTORY_OWNER
  | EMPLOYEE
  | USER
deriving DecidableEq, Repr

/-- A row of the `User` table.  `password` stores the bcrypt hash.
`emailVerified` has schema default `false`, `status` default `"ACTIVE"`. -/
structure User where
  id : Nat
  username : String
  password : String
  email : Option String
  phone : Option String
  role : Role
  emailVerified : Bool
  status : String
deriving DecidableEq, Repr

/-- A row of the `EmailVerification` table.  `consumed` has schema default
`false`.  Timestamps are milliseconds since epoch. -/
structure EmailVerification where
  id : Nat
  userId : Nat
  code : String
  expiresAt : Int
  consumed : Bool
deriving DecidableEq, Repr

/-- The database state the auth subsystem touches. -/
structure DB where
  users : List User
  codes : List EmailVerification
deriving DecidableEq, Repr

/-- A signed stateless token: `signJwt({ sub, username })`. -/
structure Token where
  sub : Nat
  username : String
deriving DecidableEq, Repr

def signJwt (sub : Nat) (username : String) : Token := ⟨sub, username⟩

/-- The user record with the `password` key removed
(`const { password, ...rest } = user`). -/
structure UserView where
  id : Nat
  username : String
  email : Option String
  phone : Option String
  role : Role
  emailVerified : Bool
  status : String
deriving DecidableEq, Repr

def stripPassword (u : User) : UserView :=
  { id := u.id, username := u.username, email := u.email, phone := u.phone,
    role := u.role, emailVerified := u.emailVerified, status := u.status }

/-- What `sanitizeUser` returns: either the whole record minus `password`,
or the restricted `{ username, phone }` projection. -/
inductive SanitizedView
  | full (u : UserView)
  | limited (username : String) (phone : Option String)
deriving DecidableEq, Repr

/-- `sanitizeUser(user, currentUser)` from the auth controller. -/
def sanitizeUser (user currentUser : User) : SanitizedView :=
  if currentUser.role ∈ [Role.SUPER_ADMIN, Role.ADMIN, Role.DATA_ENTRY]
      ∨ currentUser.id = user.id then
    .full (stripPassword user)
  else
    .limited user.username user.phone

/-- The duck-typed `req.user` object.  The auth middleware attaches
`{ id, username, email, phone, status }`; `role` is an `Option` because the
property may be absent (and the middleware never sets it). -/
structure ReqUser where
  id : Nat
  username : String
  email : Option String
  phone : Option String
  status : String
  role : Option Role
deriving DecidableEq, Repr

/-- The object the middleware assigns to `req.user`: note no `role` field is
copied from the stored user. -/
def attachUser (u : User) : ReqUser :=
  { id := u.id, username := u.username, email := u.email, phone := u.phone,
    status := u.status, role := none }

/-- Outcome of the auth middleware: a 401 response, or `next()` with an
identity attached. -/
inductive AuthOutcome
  | unauthenticated
  | identity (u : ReqUser)
deriving DecidableEq, Repr

/-- `authHeader.startsWith('Bearer ') ? authHeader.slice(7) : null`,
written over the character list so it evaluates by reduction. -/
def bearerToken (h : String) : Option String :=
  if h.data.take 7 = "Bearer ".data then some (String.mk (h.data.drop 7))
  else none

/-- `authMiddleware` : parse the bearer header, verify the token, load the
user, and attach `req.user`.  All failures (missing header, malformed
header, bad/expired signature, non-numeric `sub`, unknown user) respond
401; `verifyJwt` abstracts signature verification and `sub` extraction. -/
def authMiddleware (verifyJwt : String → Option Nat) (db : DB)
    (header : Option String) : AuthOutcome :=
  match header with
  | none => .unauthenticated
  | some h =>
    match bearerToken h with
    | none => .unauthenticated
    | some tok =>
      if tok = "" then .unauthenticated
      else
        match verifyJwt tok with
        | none => .unauthenticated
        | some uid =>
          match db.users.find? (fun u => u.id == uid) with
          | none => .unauthenticated
          | some u => .identity (attachUser u)

/-- Outcome of the role gate / the composed route pipeline. -/
inductive GateOutcome
  | unauthenticated
  | forbidden
  | pass
deriving DecidableEq, Repr

/-- `checkRole(allowedRoles)` from `utils/roleChecker.js`: 403 when
`req.user` or `req.user.role` is absent, 403 when the role is not in the
allow-list, otherwise `next()`. -/
def checkRole (allowedRoles : List Role) (user : Option ReqUser) : GateOutcome :=
  match user with
  | none => .forbidden
  | some u =>
    match u.role with
    | none => .forbidden
    | some r => if r ∈ allowedRoles then .pass else .forbidden

/-- A role-gated route as wired in the route files:
`router.post(path, authMiddleware, checkRole(allowedRoles), handler)`. -/
def gatedRoute (verifyJwt : String → Option Nat) (db : DB)
    (allowedRoles : List Role) (header : Option String) : GateOutcome :=
  match authMiddleware verifyJwt db header with
  | .unauthenticated => .unauthenticated
  | .identity u => checkRole allowedRoles (some u)

/-!  Verification-code store (`sendVerificationCode` and the
`emailVerification.findFirst` query shape used by verify-email and
reset-password). -/

/-- The numeric value of a freshly generated code:
`Math.floor(100000 + Math.random() * 900000)`, with `Math.random()`
modelled as a rational `r` (the actual value lies in `[0,1)`). -/
def genCodeVal (r : ℚ) : ℤ := ⌊(100000 : ℚ) + r * 900000⌋

/-- `String(Math.floor(100000 + Math.random() * 900000))`. -/
def genCode (r : ℚ) : String := toString (genCodeVal r)

/-- `sendVerificationCode(user)`: persist a new `EmailVerification` row with
`expiresAt = now + 15*60*1000` and the schema default `consumed = false`.
`codeId` is the autoincremented primary key.  The subsequent
`sendMail` call is an external side effect and is not part of the state. -/
def sendVerificationCode (db : DB) (now : Int) (codeId : Nat) (r : ℚ)
    (u : User) : DB :=
  { db with codes := db.codes ++
      [{ id := codeId, userId := u.id, code := genCode r,
         expiresAt := now + 15 * 60 * 1000, consumed := false }] }

/-- The `where` clause of
`emailVerification.findFirst({ where: { userId, code, consumed: false } })`. -/
def isCandidate (uid : Nat) (c : String) (rec : EmailVerification) : Bool :=
  rec.userId == uid && rec.code == c && rec.consumed == false

/-- Accumulator step realising `orderBy: { id: 'desc' }` + `findFirst`:
keep the matching row with the greatest id. -/
def pickLatest : Option EmailVerification → EmailVerification →
    Option EmailVerification
  | none, rec => some rec
  | some a, rec => if a.id < rec.id then some rec else some a

/-- `emailVerification.findFirst({ where: { userId, code, consumed: false },
orderBy: { id: 'desc' } })`. -/
def latestMatch (codes : List EmailVerification) (uid : Nat) (c : String) :
    Option EmailVerification :=
  (codes.filter (isCandidate uid c)).foldl pickLatest none

/-!  Auth flow controller (`signup`, `verifyEmail`, `resetPassword`,
`changePassword`). -/

/-- Responses of `signup`.  The needs-verification response carries no
token; the immediate-authentication response does. -/
inductive SignupResult
  | validationError
  | usernameExists
  | emailExists
  | needsVerification (user : SanitizedView)
  | authenticated (token : Token) (user : SanitizedView)
deriving DecidableEq, Repr

/-- JS truthiness of an optional string field: `undefined`, `null` and the
empty string are all falsy. -/
def truthy : Option String → Bool
  | some s => s != ""
  | none => false

/-- zod failure of `z.string().email().optional()`: present but malformed. -/
def emailMalformed (emailOk : String → Bool) : Option String → Bool
  | some e => !emailOk e
  | none => false

/-- `signup(req, res)`:  zod validation (username ≥ 3 chars, password ≥ 6
chars, email optional but must be well formed when present), uniqueness
pre-checks, then `user.create` with `role: 'USER'` and **no**
`emailVerified` key, so the column takes its schema default `false`.
`newUserId`/`newCodeId` are the autoincremented keys and `r` the
`Math.random()` draw used if a verification code is issued.
JS truthiness: `if (email)` is false for an absent *or empty* email. -/
def signup (hashPw : String → String) (emailOk : String → Bool) (db : DB)
    (now : Int) (newUserId newCodeId : Nat) (r : ℚ)
    (username password : String) (email phone : Option String) :
    SignupResult × DB :=
  if username.length < 3 ∨ password.length < 6 ∨
      emailMalformed emailOk email = true then
    (.validationError, db)
  else if db.users.any (fun u => u.username == username) then
    (.usernameExists, db)
  else if truthy email ∧
      db.users.any (fun u => u.email == email) then
    (.emailExists, db)
  else
    let user : User :=
      { id := newUserId, username := username, password := hashPw password,
        email := email, phone := phone, role := Role.USER,
        emailVerified := false, status := "ACTIVE" }
    let db₁ : DB := { db with users := db.users ++ [user] }
    if truthy email then
      (.needsVerification (sanitizeUser user user),
       sendVerificationCode db₁ now newCodeId r user)
    else
      (.authenticated (signJwt user.id user.username)
        (sanitizeUser user user), db₁)

/-- Responses of `verifyEmail`. -/
inductive VerifyResult
  | missingParams
  | userNotFound
  | invalidCode
  | codeExpired
  | verified (token : Token) (user : SanitizedView)
deriving DecidableEq, Repr

/-- `verifyEmail(req, res)`: require code and email (JS truthiness: empty
string fails the check), look the user up by email, find the latest
unconsumed matching code, reject when `record.expiresAt < new Date()`,
otherwise run the transaction marking the record consumed and setting
`emailVerified` in a single state transition and return a token.  The
response echoes `sanitizeUser(user, user)` on the record read *before*
the update. -/
def verifyEmail (db : DB) (now : Int) (email code : String) :
    VerifyResult × DB :=
  if code = "" ∨ email = "" then (.missingParams, db)
  else
    match db.users.find? (fun u => u.email == some email) with
    | none => (.userNotFound, db)
    | some user =>
      match latestMatch db.codes user.id code with
      | none => (.invalidCode, db)
      | some record =>
        if record.expiresAt < now then (.codeExpired, db)
        else
          let db' : DB :=
            { users := db.users.map (fun v =>
                if v.id = user.id then { v with emailVerified := true } else v),
              codes := db.codes.map (fun rec =>
                if rec.id = record.id then { rec with consumed := true } else rec) }
          (.verified (signJwt user.id user.username) (sanitizeUser user user),
           db')

/-- Responses of `resetPassword`. -/
inductive ResetResult
  | validationError
  | userNotFound
  | invalidCode
  | codeExpired
  | success
deriving DecidableEq, Repr

/-- `resetPassword(req, res)`: zod validation (well-formed email, code of
exactly 6 characters, new password ≥ 6 characters), then the same lookup
as verify-email; on a fresh match, replace the password hash and mark the
code consumed in a single transaction. -/
def resetPassword (hashPw : String → String) (emailOk : String → Bool)
    (db : DB) (now : Int) (email code newPassword : String) :
    ResetResult × DB :=
  if emailOk email = false ∨ code.length ≠ 6 ∨ newPassword.length < 6 then
    (.validationError, db)
  else
    match db.users.find? (fun u => u.email == some email) with
    | none => (.userNotFound, db)
    | some user =>
      match latestMatch db.codes user.id code with
      | none => (.invalidCode, db)
      | some record =>
        if record.expiresAt < now then (.codeExpired, db)
        else
          (.success,
           { users := db.users.map (fun v =>
               if v.id = user.id then { v with password := hashPw newPassword }
               else v),
             codes := db.codes.map (fun rec =>
               if rec.id = record.id then { rec with consumed := true }
               else rec) })

/-- Responses of `changePassword`. -/
inductive ChangePasswordResult
  | validationError
  | userNotFound
  | noPermission
  | cannotChangeSuperAdmin
  | cannotChangeThisUser
  | oldPasswordIncorrect
  | success
deriving DecidableEq, Repr

/-- `changePassword(req, res)` (authenticated): zod validation (old and new
password ≥ 6 characters), target looked up by the path id, then the
role/self checks from the source, then the old-password check, then the
update.  The actor is the duck-typed `req.user`. -/
def changePassword (hashPw : String → String)
    (verifyPw : String → String → Bool) (db : DB) (actor : ReqUser)
    (targetId : Nat) (oldPassword newPassword : String) :
    ChangePasswordResult × DB :=
  if oldPassword.length < 6 ∨ newPassword.length < 6 then
    (.validationError, db)
  else
    match db.users.find? (fun u => u.id == targetId) with
    | none => (.userNotFound, db)
    | some user =>
      let isSelf := actor.id = user.id
      if ¬ isSelf ∧
          actor.role ∉ [some Role.SUPER_ADMIN, some Role.ADMIN,
                        some Role.DATA_ENTRY] then
        (.noPermission, db)
      else if actor.role = some Role.ADMIN ∧ user.role = Role.SUPER_ADMIN then
        (.cannotChangeSuperAdmin, db)
      else if actor.role = some Role.DATA_ENTRY ∧
          user.role ∈ [Role.SUPER_ADMIN, Role.ADMIN] then
        (.cannotChangeThisUser, db)
      else if verifyPw oldPassword user.password = false then
        (.oldPasswordIncorrect, db)
      else
        (.success,
         { db with users := db.users.map (fun v =>
             if v.id = user.id then { v with password := hashPw newPassword }
             else v) })

/-!  User controller (`createUser`, `updateUser`, `getUsers`, `getUser`). -/

/-- Responses of `createUser`. -/
inductive CreateUserResult
  | validationError
  | notAllowedHere
  | roleNotAllowed
  | conflict
  | created (user : User)
deriving DecidableEq, Repr

/-- The switch in `createUser` mapping the actor's role to the roles it may
assign; the `default` branch responds 403 directly. -/
def allowedRolesToCreate : Role → Option (List Role)
  | Role.SUPER_ADMIN =>
      some [Role.SUPER_ADMIN, Role.ADMIN, Role.DATA_ENTRY, Role.FACTORY_OWNER,
            Role.EMPLOYEE, Role.USER]
  | Role.ADMIN =>
      some [Role.ADMIN, Role.DATA_ENTRY, Role.FACTORY_OWNER, Role.EMPLOYEE,
            Role.USER]
  | Role.DATA_ENTRY => some [Role.ADMIN, Role.DATA_ENTRY, Role.USER]
  | _ => none

/-- `createUser(req, res)`: zod validation (username ≥ 3, well-formed email,
phone ≥ 7, password ≥ 6, role optional), the role switch on
`req.user.role`, the uniqueness pre-check, then `user.create` with
`role: role || 'USER'` and `emailVerified` true exactly when the actor's
role is SUPER_ADMIN/ADMIN/DATA_ENTRY (true on every branch that creates).
The response returns the **raw** created record (`{ user: newUser }`).
The `sendVerificationEmail` call on the `!emailVerified` branch is dead
code in every reachable branch. -/
def createUser (hashPw : String → String) (emailOk : String → Bool)
    (db : DB) (newId : Nat) (actor : ReqUser)
    (username email phone password : String) (reqRole : Option Role) :
    CreateUserResult × DB :=
  if username.length < 3 ∨ emailOk email = false ∨ phone.length < 7 ∨
      password.length < 6 then
    (.validationError, db)
  else
    match actor.role.bind allowedRolesToCreate with
    | none => (.notAllowedHere, db)
    | some allowed =>
      if (∃ r, reqRole = some r ∧ r ∉ allowed) then (.roleNotAllowed, db)
      else if db.users.any (fun u =>
          u.username == username || u.email == some email) then
        (.conflict, db)
      else
        let emailVerified :=
          actor.role ∈ [some Role.SUPER_ADMIN, some Role.ADMIN,
                        some Role.DATA_ENTRY]
        let newUser : User :=
          { id := newId, username := username, password := hashPw password,
            email := some email, phone := some phone,
            role := reqRole.getD Role.USER, emailVerified := emailVerified,
            status := "ACTIVE" }
        (.created newUser, { db with users := db.users ++ [newUser] })

/-- The optional fields of the `updateUser` request body. -/
structure UpdateData where
  username : Option String
  email : Option String
  phone : Option String
  password : Option String
  role : Option Role
deriving DecidableEq, Repr

/-- Responses of `updateUser`. -/
inductive UpdateUserResult
  | validationError
  | userNotFound
  | forbiddenEdit
  | forbiddenRole
  | forbiddenRoleAssign
  | conflict
  | internalError
  | forbiddenPassword
  | forbiddenPasswordTarget
  | updated (user : User)
deriving DecidableEq, Repr

def UpdateUserResult.isUpdated : UpdateUserResult → Bool
  | .updated _ => true
  | _ => false

/-- zod failure of the `updateUser` body: any present field malformed. -/
def updateDataInvalid (emailOk : String → Bool) (d : UpdateData) : Bool :=
  (match d.username with | some s => decide (s.length < 3) | none => false) ||
  (match d.email with | some e => !emailOk e | none => false) ||
  (match d.phone with | some p => decide (p.length < 7) | none => false) ||
  (match d.password with | some p => decide (p.length < 6) | none => false)

/-- `updateUser(req, res)`: validation, target lookup, self/role edit gate,
role-change gate, uniqueness conflict check, the email-reverification
branch (whose call to the undefined `sendVerificationEmail` throws a
ReferenceError, surfaced by `handleError` as a 500, leaving the store
untouched), the password gate, then the update.  The response returns the
**raw** updated record. -/
def updateUser (hashPw : String → String) (emailOk : String → Bool)
    (db : DB) (actor : ReqUser) (id : Nat) (d : UpdateData) :
    UpdateUserResult × DB :=
  if updateDataInvalid emailOk d = true then (.validationError, db)
  else
    match db.users.find? (fun u => u.id == id) with
    | none => (.userNotFound, db)
    | some target =>
      let isSelf := actor.id = id
      let canEditOthers :=
        actor.role ∈ [some Role.SUPER_ADMIN, some Role.ADMIN,
                      some Role.DATA_ENTRY]
      if ¬ canEditOthers ∧ ¬ isSelf then (.forbiddenEdit, db)
      else if d.role.isSome ∧
          actor.role ∉ [some Role.SUPER_ADMIN, some Role.ADMIN] then
        (.forbiddenRole, db)
      else if actor.role = some Role.ADMIN ∧
          d.role = some Role.SUPER_ADMIN then
        (.forbiddenRoleAssign, db)
      else if (d.username.isSome ∨ d.email.isSome) ∧
          db.users.any (fun u =>
            u.id != id &&
            ((match d.username with
              | some s => u.username == s
              | none => false) ||
             (match d.email with
              | some e => u.email == some e
              | none => false))) then
        (.conflict, db)
      else if d.email.isSome ∧
          actor.role ∉ [some Role.SUPER_ADMIN, some Role.ADMIN,
                        some Role.DATA_ENTRY] then
        (.internalError, db)
      else
        let finish : String → UpdateUserResult × DB := fun newHash =>
          let updatedUser : User :=
            { target with
              username := d.username.getD target.username,
              email := (match d.email with
                        | some e => some e
                        | none => target.email),
              phone := (match d.phone with
                        | some p => some p
                        | none => target.phone),
              role := d.role.getD target.role,
              password := newHash,
              emailVerified := target.emailVerified }
          (.updated updatedUser,
           { db with users := db.users.map (fun v =>
               if v.id = id then updatedUser else v) })
        match d.password with
        | none => finish target.password
        | some p =>
          if actor.role ∉ [some Role.SUPER_ADMIN, some Role.ADMIN] then
            (.forbiddenPassword, db)
          else if actor.role = some Role.ADMIN ∧
              target.role = Role.SUPER_ADMIN then
            (.forbiddenPasswordTarget, db)
          else finish (hashPw p)

/-- `getUsers(req, res)`: `user.findMany` and `res.json({ users })` — the
raw records, password hashes included.  The source also orders the list
by username ascending; the ordering is irrelevant to every claim and is
not modelled. -/
def getUsers (db : DB) : List User := db.users

/-- Responses of `getUser`. -/
inductive GetUserResult
  | userNotFound
  | publicView (id : Nat) (username : String) (phone : Option String)
  | fullView (user : User)
deriving DecidableEq, Repr

/-- `getUser(req, res)`: full access (SUPER_ADMIN/ADMIN/DATA_ENTRY/
FACTORY_OWNER or self) returns the raw record; otherwise only
`{ id, username, phone }`. -/
def getUser (db : DB) (currentUser : ReqUser) (id : Nat) : GetUserResult :=
  match db.users.find? (fun u => u.id == id) with
  | none => .userNotFound
  | some user =>
    let hasFullAccess :=
      currentUser.role ∈ [some Role.SUPER_ADMIN, some Role.ADMIN,
                          some Role.DATA_ENTRY, some Role.FACTORY_OWNER] ∨
      currentUser.id = id
    if hasFullAccess then .fullView user
    else .publicView user.id user.username user.phone

/-!  Concrete instantiations of the abstract collaborators, used by closed
witnesses and counterexamples.  The statements they witness hold for every
instantiation. -/

def hashFn (s : String) : String := "hashed-" ++ s

def verifyPwFn (plain digest : String) : Bool := ("hashed-" ++ plain) == digest

def emailOkFn (_ : String) : Bool := true

def vjW : String → Option Nat := fun _ => some 1

def dbEmpty : DB := { users := [], codes := [] }

def uStoredW : User :=
  { id := 1, username := "wanda", password := "hashed-pw", email := none,
    phone := none, role := Role.ADMIN, emailVerified := true,
    status := "ACTIVE" }

def dbW : DB := { users := [uStoredW], codes := [] }

def uW : ReqUser :=
  { id := 1, username := "wanda", email := none, phone := none,
    status := "ACTIVE", role := some Role.ADMIN }

def uDEW : ReqUser :=
  { id := 7, username := "dataentry", email := none, phone := none,
    status := "ACTIVE", role := some Role.DATA_ENTRY }

def uSAW : ReqUser :=
  { id := 9, username := "root", email := none, phone := none,
    status := "ACTIVE", role := some Role.SUPER_ADMIN }

def u2W : User :=
  { id := 2, username := "bob", password := "hashed-bobsecret",
    email := some "b@x.com", phone := none, role := Role.USER,
    emailVerified := true, status := "ACTIVE" }

def dbU : DB := { users := [uStoredW, u2W], codes := [] }

def uUserW : ReqUser :=
  { id := 2, username := "bob", email := some "b@x.com", phone := none,
    status := "ACTIVE", role := some Role.USER }

def uC1 : User :=
  { id := 1, username := "alice", password := "hashed-pw",
    email := some "a@x.com", phone := none, role := Role.USER,
    emailVerified := false, status := "ACTIVE" }

def recExpW : EmailVerification :=
  { id := 5, userId := 1, code := "654321", expiresAt := 1000,
    consumed := false }

def dbExpW : DB := { users := [uC1], codes := [recExpW] }

def recOldW : EmailVerification :=
  { id := 1, userId := 1, code := "123456", expiresAt := 10,
    consumed := false }

def recNewW : EmailVerification :=
  { id := 2, userId := 1, code := "123456", expiresAt := 1000,
    consumed := false }

def dbShadowW : DB := { users := [uC1], codes := [recOldW, recNewW] }

/-!  Theorems. -/

/-- C4: on a role-gated route the middleware rejects requests without an
authenticated identity with the distinct 401 outcome before the role gate
is consulted; an attached identity whose role is outside the required set
is rejected by the gate with 403 Forbidden; an attached identity whose
role is in the set passes. -/
theorem gate_unauth_then_role (vj : String → Option Nat) (db : DB)
    (allowed : List Role) (header : Option String) (u : ReqUser) (r : Role) :
    (authMiddleware vj db header = .unauthenticated →
      gatedRoute vj db allowed header = .unauthenticated) ∧
    (u.role = some r → r ∉ allowed → checkRole allowed (some u) = .forbidden) ∧
    (u.role = some r → r ∈ allowed → checkRole allowed (some u) = .pass) := by
  refine ⟨fun h => ?_, fun hr hn => ?_, fun hr hm => ?_⟩
  · simp [gatedRoute, h]
  · simp [checkRole, hr, hn]
  · simp [checkRole, hr, hm]

/-- C4 witness at concrete inputs. -/
theorem gate_unauth_then_role_witness :
    gatedRoute (fun _ => none) dbW [Role.ADMIN] (some "Bearer t")
      = GateOutcome.unauthenticated ∧
    checkRole [Role.SUPER_ADMIN] (some uW) = GateOutcome.forbidden ∧
    checkRole [Role.ADMIN] (some uW) = GateOutcome.pass :=
  ⟨(gate_unauth_then_role (fun _ => none) dbW [Role.ADMIN] (some "Bearer t")
      uW Role.ADMIN).1 (by decide),
   (gate_unauth_then_role (fun _ => none) dbW [Role.SUPER_ADMIN]
      (some "Bearer t") uW Role.ADMIN).2.1 rfl (by decide),
   (gate_unauth_then_role (fun _ => none) dbW [Role.ADMIN] (some "Bearer t")
      uW Role.ADMIN).2.2 rfl (by decide)⟩

/-- C5: the identity the middleware attaches is exactly
`{ id, username, email, phone, status }` of a stored user with `role`
absent, so composing it with the role gate yields 403 Forbidden for every
authenticated caller, whatever role the database stores for them. -/
theorem authMiddleware_attaches_no_role (vj : String → Option Nat) (db : DB)
    (header : Option String) (u : ReqUser)
    (h : authMiddleware vj db header = .identity u) :
    u.role = none ∧ (∃ su ∈ db.users, u = attachUser su) ∧
    ∀ allowed : List Role, gatedRoute vj db allowed header = .forbidden := by
  have h0 := h
  unfold authMiddleware at h
  cases header with
  | none => simp at h
  | some hdr =>
    cases hbt : bearerToken hdr with
    | none => simp [hbt] at h
    | some tok =>
      simp only [hbt] at h
      by_cases ht : tok = ""
      · simp [ht] at h
      · simp only [if_neg ht] at h
        cases hv : vj tok with
        | none => simp [hv] at h
        | some uid =>
          simp only [hv] at h
          cases hf : db.users.find? (fun x => x.id == uid) with
          | none => simp [hf] at h
          | some su =>
            simp only [hf, AuthOutcome.identity.injEq] at h
            subst h
            refine ⟨rfl, ⟨su, List.mem_of_find?_eq_some hf, rfl⟩,
              fun allowed => ?_⟩
            simp [gatedRoute, h0, checkRole, attachUser]

/-- C5 witness at concrete inputs: a stored ADMIN is attached without a
role and the standard `[SUPER_ADMIN, ADMIN, DATA_ENTRY]` gate forbids
them. -/
theorem authMiddleware_attaches_no_role_witness :
    (attachUser uStoredW).role = none ∧
    gatedRoute vjW dbW [Role.SUPER_ADMIN, Role.ADMIN, Role.DATA_ENTRY]
      (some "Bearer t") = GateOutcome.forbidden :=
  ⟨(authMiddleware_attaches_no_role vjW dbW (some "Bearer t")
      (attachUser uStoredW) (by decide)).1,
   (authMiddleware_attaches_no_role vjW dbW (some "Bearer t")
      (attachUser uStoredW) (by decide)).2.2
     [Role.SUPER_ADMIN, Role.ADMIN, Role.DATA_ENTRY]⟩

/-- The record `createUser` inserts and returns when the request passes the
role and uniqueness checks (the actor's role is privileged on every such
branch, so `emailVerified` is `true`). -/
def createdUser (hashPw : String → String) (newId : Nat)
    (username email phone password : String) (r : Role) : User :=
  { id := newId, username := username, password := hashPw password,
    email := some email, phone := some phone, role := r,
    emailVerified := true, status := "ACTIVE" }

/-- C6: create-user role policy — SUPER_ADMIN may create any role, ADMIN
any role except SUPER_ADMIN, DATA_ENTRY only ADMIN/DATA_ENTRY/USER
(FACTORY_OWNER in particular is denied, USER succeeds), and an actor of
any other role is denied entirely with 403, for valid, conflict-free
input. -/
theorem createUser_role_policy (hashPw : String → String)
    (emailOk : String → Bool) (db : DB) (newId : Nat) (actor : ReqUser)
    (username email phone password : String) (r : Role)
    (hval : ¬ (username.length < 3 ∨ emailOk email = false ∨
               phone.length < 7 ∨ password.length < 6))
    (hconf : ∀ u ∈ db.users, u.username ≠ username ∧ u.email ≠ some email) :
    (actor.role = some Role.SUPER_ADMIN →
      (createUser hashPw emailOk db newId actor username email phone password
          (some r)).1
        = .created (createdUser hashPw newId username email phone password r)) ∧
    (actor.role = some Role.ADMIN → r ≠ Role.SUPER_ADMIN →
      (createUser hashPw emailOk db newId actor username email phone password
          (some r)).1
        = .created (createdUser hashPw newId username email phone password r)) ∧
    (actor.role = some Role.ADMIN →
      (createUser hashPw emailOk db newId actor username email phone password
          (some Role.SUPER_ADMIN)).1 = .roleNotAllowed) ∧
    (actor.role = some Role.DATA_ENTRY →
      r ∈ [Role.ADMIN, Role.DATA_ENTRY, Role.USER] →
      (createUser hashPw emailOk db newId actor username email phone password
          (some r)).1
        = .created (createdUser hashPw newId username email phone password r)) ∧
    (actor.role = some Role.DATA_ENTRY →
      r ∉ [Role.ADMIN, Role.DATA_ENTRY, Role.USER] →
      (createUser hashPw emailOk db newId actor username email phone password
          (some r)).1 = .roleNotAllowed) ∧
    (actor.role ∉ [some Role.SUPER_ADMIN, some Role.ADMIN,
                   some Role.DATA_ENTRY] →
      ∀ rr : Option Role,
        (createUser hashPw emailOk db newId actor username email phone password
            rr).1 = .notAllowedHere) := by
  have hnoconf : ¬ (db.users.any (fun u =>
      u.username == username || u.email == some email) = true) := by
    rw [List.any_eq_true]
    rintro ⟨u, hu, hpu⟩
    rcases hconf u hu with ⟨h1, h2⟩
    rcases Bool.or_eq_true_iff.mp hpu with h | h
    · exact h1 (by simpa using h)
    · exact h2 (by simpa using h)
  have hxSA : ¬ ∃ r', (some r : Option Role) = some r' ∧
      r' ∉ [Role.SUPER_ADMIN, Role.ADMIN, Role.DATA_ENTRY,
            Role.FACTORY_OWNER, Role.EMPLOYEE, Role.USER] := by
    rintro ⟨r', hr', hmem⟩
    cases hr'
    apply hmem
    cases r <;> decide
  refine ⟨fun ha => ?_, fun ha hr => ?_, fun ha => ?_, fun ha hr => ?_,
    fun ha hr => ?_, fun ha rr => ?_⟩
  · simp only [createUser, if_neg hval, ha, Option.some_bind,
      allowedRolesToCreate]
    rw [if_neg hxSA, if_neg hnoconf]
    simp [createdUser, ha]
  · have hxA : ¬ ∃ r', (some r : Option Role) = some r' ∧
        r' ∉ [Role.ADMIN, Role.DATA_ENTRY, Role.FACTORY_OWNER,
              Role.EMPLOYEE, Role.USER] := by
      rintro ⟨r', hr', hmem⟩
      cases hr'
      apply hmem
      cases r
      · exact absurd rfl hr
      all_goals decide
    simp only [createUser, if_neg hval, ha, Option.some_bind,
      allowedRolesToCreate]
    rw [if_neg hxA, if_neg hnoconf]
    simp [createdUser, ha]
  · simp only [createUser, if_neg hval, ha, Option.some_bind,
      allowedRolesToCreate]
    rw [if_pos ⟨Role.SUPER_ADMIN, rfl, by decide⟩]
  · have hxDE : ¬ ∃ r', (some r : Option Role) = some r' ∧
        r' ∉ [Role.ADMIN, Role.DATA_ENTRY, Role.USER] := by
      rintro ⟨r', hr', hmem⟩
      cases hr'
      exact hmem hr
    simp only [createUser, if_neg hval, ha, Option.some_bind,
      allowedRolesToCreate]
    rw [if_neg hxDE, if_neg hnoconf]
    simp [createdUser, ha]
  · simp only [createUser, if_neg hval, ha, Option.some_bind,
      allowedRolesToCreate]
    rw [if_pos ⟨r, rfl, hr⟩]
  · have hnone : actor.role.bind allowedRolesToCreate = none := by
      cases hra : actor.role with
      | none => rfl
      | some ar =>
        rw [hra] at ha
        cases ar
        · exact absurd (by decide) ha
        · exact absurd (by decide) ha
        · exact absurd (by decide) ha
        · rfl
        · rfl
        · rfl
    simp only [createUser, if_neg hval, hnone]

/-- C6 witness: a DATA_ENTRY actor creating a FACTORY_OWNER is denied and
creating a USER succeeds. -/
theorem createUser_role_policy_witness :
    (createUser hashFn emailOkFn dbEmpty 1 uDEW "newbie" "n@x.com" "1234567"
        "secret1" (some Role.FACTORY_OWNER)).1
      = CreateUserResult.roleNotAllowed ∧
    (createUser hashFn emailOkFn dbEmpty 1 uDEW "newbie" "n@x.com" "1234567"
        "secret1" (some Role.USER)).1
      = CreateUserResult.created
          (createdUser hashFn 1 "newbie" "n@x.com" "1234567" "secret1"
            Role.USER) :=
  ⟨(createUser_role_policy hashFn emailOkFn dbEmpty 1 uDEW "newbie" "n@x.com"
      "1234567" "secret1" Role.FACTORY_OWNER (by decide)
      (by intro u hu; cases hu)).2.2.2.2.1 rfl (by decide),
   (createUser_role_policy hashFn emailOkFn dbEmpty 1 uDEW "newbie" "n@x.com"
      "1234567" "secret1" Role.USER (by decide)
      (by intro u hu; cases hu)).2.2.2.1 rfl (by decide)⟩

/-- C7: a role change through `updateUser` is never applied unless the
actor is SUPER_ADMIN or ADMIN; an ADMIN requesting SUPER_ADMIN for the
target is denied with 403 Forbidden; a SUPER_ADMIN making the same pure
role change succeeds. -/
theorem updateUser_role_change_policy (hashPw : String → String)
    (emailOk : String → Bool) (db : DB) (actor : ReqUser) (id : Nat)
    (d : UpdateData) (target : User) (rr : Role) :
    (d.role.isSome = true →
      actor.role ∉ [some Role.SUPER_ADMIN, some Role.ADMIN] →
      (updateUser hashPw emailOk db actor id d).1.isUpdated = false) ∧
    (db.users.find? (fun u => u.id == id) = some target →
      actor.role = some Role.ADMIN →
      (updateUser hashPw emailOk db actor id
          ⟨none, none, none, none, some Role.SUPER_ADMIN⟩).1
        = .forbiddenRoleAssign) ∧
    (db.users.find? (fun u => u.id == id) = some target →
      actor.role = some Role.SUPER_ADMIN →
      (updateUser hashPw emailOk db actor id
          ⟨none, none, none, none, some rr⟩).1
        = .updated { target with role := rr }) := by
  refine ⟨fun hrole hact => ?_, fun hf ha => ?_, fun hf ha => ?_⟩
  · by_cases hv : updateDataInvalid emailOk d = true
    · simp [updateUser, hv, UpdateUserResult.isUpdated]
    · cases hf : db.users.find? (fun u => u.id == id) with
      | none => simp [updateUser, hv, hf, UpdateUserResult.isUpdated]
      | some t =>
        have hcond : d.role.isSome = true ∧
            actor.role ∉ [some Role.SUPER_ADMIN, some Role.ADMIN] :=
          ⟨hrole, hact⟩
        simp [updateUser, hv, hf, hcond, UpdateUserResult.isUpdated]
        split_ifs <;> rfl
  · simp [updateUser, updateDataInvalid, hf, ha]
  · simp [updateUser, updateDataInvalid, hf, ha]

/-- C7 witness: with a stored USER target, the ADMIN actor is refused the
SUPER_ADMIN assignment and the SUPER_ADMIN actor succeeds, and a
DATA_ENTRY actor's role-change request is never applied. -/
theorem updateUser_role_change_policy_witness :
    (updateUser hashFn emailOkFn dbU uDEW 2
        ⟨none, none, none, none, some Role.USER⟩).1.isUpdated = false ∧
    (updateUser hashFn emailOkFn dbU uW 2
        ⟨none, none, none, none, some Role.SUPER_ADMIN⟩).1
      = UpdateUserResult.forbiddenRoleAssign ∧
    (updateUser hashFn emailOkFn dbU uSAW 2
        ⟨none, none, none, none, some Role.SUPER_ADMIN⟩).1
      = UpdateUserResult.updated { u2W with role := Role.SUPER_ADMIN } :=
  ⟨(updateUser_role_change_policy hashFn emailOkFn dbU uDEW 2
      ⟨none, none, none, none, some Role.USER⟩ u2W Role.USER).1
      (by decide) (by decide),
   (updateUser_role_change_policy hashFn emailOkFn dbU uW 2
      ⟨none, none, none, none, some Role.SUPER_ADMIN⟩ u2W
      Role.SUPER_ADMIN).2.1 (by decide) rfl,
   (updateUser_role_change_policy hashFn emailOkFn dbU uSAW 2
      ⟨none, none, none, none, some Role.SUPER_ADMIN⟩ u2W
      Role.SUPER_ADMIN).2.2 (by decide) rfl⟩

/-- C2 (amended): responses built through `sanitizeUser` never carry the
password hash — callers with full access receive the record with the
`password` key removed and everyone else only `{ username, phone }` — and
`getUser` without full access returns only `{ id, username, phone }`;
however `getUsers` and `getUser` with full access return the raw record,
password hash included (see the counterexample theorem). -/
theorem sanitizeUser_and_restricted_views (u cur : User) (db : DB)
    (curR : ReqUser) (id : Nat) (target : User) :
    (cur.role ∈ [Role.SUPER_ADMIN, Role.ADMIN, Role.DATA_ENTRY] ∨
        cur.id = u.id →
      sanitizeUser u cur = .full (stripPassword u)) ∧
    (¬ (cur.role ∈ [Role.SUPER_ADMIN, Role.ADMIN, Role.DATA_ENTRY] ∨
        cur.id = u.id) →
      sanitizeUser u cur = .limited u.username u.phone) ∧
    (db.users.find? (fun v => v.id == id) = some target →
      ¬ (curR.role ∈ [some Role.SUPER_ADMIN, some Role.ADMIN,
            some Role.DATA_ENTRY, some Role.FACTORY_OWNER] ∨
          curR.id = id) →
      getUser db curR id
        = .publicView target.id target.username target.phone) := by
  refine ⟨fun h => ?_, fun h => ?_, fun hf h => ?_⟩
  · simp at h
    simp [sanitizeUser]
    tauto
  · simp at h
    simp [sanitizeUser]
    tauto
  · simp at h
    simp [getUser, hf]
    tauto

/-- C2 witness at concrete inputs: the restricted projections for a plain
USER caller. -/
theorem sanitizeUser_and_restricted_views_witness :
    sanitizeUser u2W u2W = SanitizedView.full (stripPassword u2W) ∧
    sanitizeUser uStoredW u2W
      = SanitizedView.limited uStoredW.username uStoredW.phone ∧
    getUser dbU uUserW 1
      = GetUserResult.publicView uStoredW.id uStoredW.username
          uStoredW.phone :=
  ⟨(sanitizeUser_and_restricted_views u2W u2W dbU uUserW 1 uStoredW).1
      (by decide),
   (sanitizeUser_and_restricted_views uStoredW u2W dbU uUserW 1 uStoredW).2.1
      (by decide),
   (sanitizeUser_and_restricted_views uStoredW u2W dbU uUserW 1 uStoredW).2.2
      (by decide) (by decide)⟩

/-- C2 counterexample: `getUsers` and full-access `getUser` return the raw
stored records — the password hashes appear verbatim in the response
data, contradicting the claim that no read operation ever includes them. -/
theorem getUsers_leaks_password_hash :
    (getUsers dbU).map User.password = ["hashed-pw", "hashed-bobsecret"] ∧
    getUser dbU uW 2 = GetUserResult.fullView u2W ∧
    u2W.password = "hashed-bobsecret" := by decide

/-- C9 (amended): for a `Math.random()` draw `r ∈ [0,1)` the generated code
value lies in 100000–999999 (a six-digit string with no leading zero, so
the range 000000–099999 is never covered), and the persisted record has
`expiresAt = now + 15` minutes and `consumed = false`. -/
theorem sendVerificationCode_range_expiry (db : DB) (now : Int)
    (codeId : Nat) (r : ℚ) (u : User) (h0 : 0 ≤ r) (h1 : r < 1) :
    100000 ≤ genCodeVal r ∧ genCodeVal r ≤ 999999 ∧
    ({ id := codeId, userId := u.id, code := genCode r,
       expiresAt := now + 15 * 60 * 1000, consumed := false } :
        EmailVerification) ∈ (sendVerificationCode db now codeId r u).codes := by
  have hlo : (100000 : ℤ) ≤ genCodeVal r := by
    rw [genCodeVal, Int.le_floor]
    push_cast
    nlinarith
  have hhi : genCodeVal r < 1000000 := by
    rw [genCodeVal, Int.floor_lt]
    push_cast
    nlinarith
  exact ⟨hlo, by omega, by simp [sendVerificationCode]⟩

/-- C9 witness at the concrete draw `r = 1/2`. -/
theorem sendVerificationCode_range_expiry_witness :
    100000 ≤ genCodeVal (1/2) ∧ genCodeVal (1/2) ≤ 999999 ∧
    ({ id := 1, userId := uStoredW.id, code := genCode (1/2),
       expiresAt := 0 + 15 * 60 * 1000, consumed := false } :
        EmailVerification) ∈
      (sendVerificationCode dbEmpty 0 1 (1/2) uStoredW).codes :=
  sendVerificationCode_range_expiry dbEmpty 0 1 (1/2) uStoredW
    (by norm_num) (by norm_num)

/-- C9 counterexample: the claim's full zero-padded range 000000–999999 is
not covered — the value 0 (the string "000000") is generated by no draw
`r ∈ [0,1)`, because `Math.floor(100000 + r * 900000)` is at least
100000. -/
theorem genCode_never_below_100000 :
    ¬ ∃ r : ℚ, 0 ≤ r ∧ r < 1 ∧ genCodeVal r = 0 := by
  rintro ⟨r, h0, h1, hz⟩
  have hlo : (100000 : ℤ) ≤ genCodeVal r := by
    rw [genCodeVal, Int.le_floor]
    push_cast
    nlinarith
  omega

/-- Appending one fresh unconsumed record to a code list with no records
for `uid` leaves exactly one unconsumed record for `uid`. -/
lemma filter_count_fresh (codes : List EmailVerification) (uid : Nat)
    (newRec : EmailVerification) (h : ∀ rec ∈ codes, rec.userId ≠ uid)
    (hnew : newRec.userId = uid) (hcons : newRec.consumed = false) :
    ((codes ++ [newRec]).filter (fun rec =>
      rec.userId == uid && !rec.consumed)).length = 1 := by
  rw [List.filter_append, List.filter_eq_nil_iff.mpr]
  · simp [hnew, hcons]
  · intro rec hrec
    simp [h rec hrec]

/-- The record `signup` inserts for a fresh username. -/
def newSignupUser (hashPw : String → String) (newUserId : Nat)
    (username password : String) (email phone : Option String) : User :=
  { id := newUserId, username := username, password := hashPw password,
    email := email, phone := phone, role := Role.USER,
    emailVerified := false, status := "ACTIVE" }

/-- C3 (amended): signup with a fresh username and email responds
needs-verification without a token, creates the user with role USER (and
`emailVerified = false`, the schema default), and leaves exactly one
unconsumed verification record for the new user; signup without an email
responds with a token immediately, but the user is likewise created with
`emailVerified = false` — the schema default — because `signup` never
sets the flag. -/
theorem signup_branches (hashPw : String → String) (emailOk : String → Bool)
    (db : DB) (now : Int) (newUserId newCodeId : Nat) (r : ℚ)
    (username password : String) (phone : Option String) (e : String)
    (hval : ¬ (username.length < 3 ∨ password.length < 6))
    (huname : ∀ u ∈ db.users, ¬ u.username = username)
    (hfreshC : ∀ rec ∈ db.codes, rec.userId ≠ newUserId) :
    (emailOk e = true → e ≠ "" → (∀ u ∈ db.users, u.email ≠ some e) →
      (signup hashPw emailOk db now newUserId newCodeId r username password
          (some e) phone).1
        = .needsVerification (SanitizedView.full
            ⟨newUserId, username, some e, phone, Role.USER, false, "ACTIVE"⟩) ∧
      newSignupUser hashPw newUserId username password (some e) phone ∈
        (signup hashPw emailOk db now newUserId newCodeId r username password
          (some e) phone).2.users ∧
      ((signup hashPw emailOk db now newUserId newCodeId r username password
          (some e) phone).2.codes.filter (fun rec =>
            rec.userId == newUserId && !rec.consumed)).length = 1) ∧
    ((signup hashPw emailOk db now newUserId newCodeId r username password
        none phone).1
      = .authenticated (signJwt newUserId username) (SanitizedView.full
          ⟨newUserId, username, none, phone, Role.USER, false, "ACTIVE"⟩) ∧
      newSignupUser hashPw newUserId username password none phone ∈
        (signup hashPw emailOk db now newUserId newCodeId r username password
          none phone).2.users) := by
  have hany : ¬ (db.users.any (fun u => u.username == username) = true) := by
    rw [List.any_eq_true]
    rintro ⟨u, hu, hpu⟩
    exact huname u hu (by simpa using hpu)
  constructor
  · intro hok he hmail
    have hv : ¬ (username.length < 3 ∨ password.length < 6 ∨
        emailMalformed emailOk (some e) = true) := by
      rintro (h | h | h)
      · exact hval (Or.inl h)
      · exact hval (Or.inr h)
      · simp [emailMalformed, hok] at h
    have hanyE : ¬ (truthy (some e) = true ∧
        db.users.any (fun u => u.email == some e) = true) := by
      rintro ⟨-, hx⟩
      rw [List.any_eq_true] at hx
      rcases hx with ⟨u, hu, hpu⟩
      exact hmail u hu (by simpa using hpu)
    have htr : truthy (some e) = true := by
      simp [truthy, he]
    have hcall : signup hashPw emailOk db now newUserId newCodeId r username
        password (some e) phone
        = (.needsVerification (sanitizeUser
              (newSignupUser hashPw newUserId username password (some e) phone)
              (newSignupUser hashPw newUserId username password (some e) phone)),
           sendVerificationCode
             { db with users := db.users ++
                 [newSignupUser hashPw newUserId username password (some e)
                   phone] }
             now newCodeId r
             (newSignupUser hashPw newUserId username password (some e)
               phone)) := by
      rw [signup, if_neg hv, if_neg hany, if_neg hanyE, if_pos htr]
      rfl
    refine ⟨?_, ?_, ?_⟩
    · rw [hcall]
      simp [sanitizeUser, newSignupUser, stripPassword]
    · rw [hcall]
      simp [sendVerificationCode, newSignupUser]
    · rw [hcall]
      exact filter_count_fresh db.codes newUserId _ hfreshC rfl rfl
  · have hv : ¬ (username.length < 3 ∨ password.length < 6 ∨
        emailMalformed emailOk none = true) := by
      rintro (h | h | h)
      · exact hval (Or.inl h)
      · exact hval (Or.inr h)
      · simp [emailMalformed] at h
    have hcall : signup hashPw emailOk db now newUserId newCodeId r username
        password none phone
        = (.authenticated (signJwt newUserId username)
             (sanitizeUser
               (newSignupUser hashPw newUserId username password none phone)
               (newSignupUser hashPw newUserId username password none phone)),
           { db with users := db.users ++
               [newSignupUser hashPw newUserId username password none
                 phone] }) := by
      rw [signup, if_neg hv, if_neg hany,
        if_neg (show ¬ (truthy none = true ∧
          (db.users.any fun u => u.email == none) = true) by
            rintro ⟨h1, -⟩; simp [truthy] at h1),
        if_neg (show ¬ truthy none = true by simp [truthy])]
      rfl
    constructor
    · rw [hcall]
      simp [sanitizeUser, newSignupUser, stripPassword, signJwt]
    · rw [hcall]
      simp

/-- C3 witness: a signup with a fresh email yields needs-verification with
no token, a USER-role record, and exactly one unconsumed code. -/
theorem signup_branches_witness :
    (signup hashFn emailOkFn dbEmpty 0 3 1 (1/2) "alice" "secret1"
        (some "a@x.com") none).1
      = SignupResult.needsVerification (SanitizedView.full
          ⟨3, "alice", some "a@x.com", none, Role.USER, false, "ACTIVE"⟩) ∧
    newSignupUser hashFn 3 "alice" "secret1" (some "a@x.com") none ∈
      (signup hashFn emailOkFn dbEmpty 0 3 1 (1/2) "alice" "secret1"
        (some "a@x.com") none).2.users ∧
    ((signup hashFn emailOkFn dbEmpty 0 3 1 (1/2) "alice" "secret1"
        (some "a@x.com") none).2.codes.filter (fun rec =>
          rec.userId == 3 && !rec.consumed)).length = 1 :=
  (signup_branches hashFn emailOkFn dbEmpty 0 3 1 (1/2) "alice" "secret1"
      none "a@x.com" (by decide) (by intro u hu; cases hu)
      (by intro rec hrec; cases hrec)).1 rfl (by decide)
    (by intro u hu; cases hu)

/-- C3 counterexample: signing up *without* an email returns a token
immediately but creates the user with `emailVerified = false` (the schema
default — `signup` never sets the flag), not `true` as claimed. -/
theorem signup_no_email_not_verified :
    (signup hashFn emailOkFn dbEmpty 0 1 1 0 "alice" "secret1" none
        none).1
      = SignupResult.authenticated (signJwt 1 "alice") (SanitizedView.full
          ⟨1, "alice", none, none, Role.USER, false, "ACTIVE"⟩) ∧
    (signup hashFn emailOkFn dbEmpty 0 1 1 0 "alice" "secret1" none
        none).2.users.map User.emailVerified = [false] := by decide

/-- C8 (amended): in `updateUser`'s password branch, only SUPER_ADMIN and
ADMIN actors may set a password and an ADMIN is refused on a SUPER_ADMIN
target, as claimed; but in `changePassword` the actor may also be the
target, or a DATA_ENTRY acting on a target that is neither SUPER_ADMIN
nor ADMIN, and must additionally present the target's current
password. -/
theorem admin_password_change_policy (hashPw : String → String)
    (emailOk : String → Bool) (verifyPw : String → String → Bool) (db : DB)
    (actor : ReqUser) (id : Nat) (d : UpdateData) (target : User)
    (oldPassword newPassword : String) :
    (d.password.isSome = true →
      actor.role ∉ [some Role.SUPER_ADMIN, some Role.ADMIN] →
      (updateUser hashPw emailOk db actor id d).1.isUpdated = false) ∧
    (db.users.find? (fun u => u.id == id) = some target →
      d.password.isSome = true →
      actor.role = some Role.ADMIN → target.role = Role.SUPER_ADMIN →
      (updateUser hashPw emailOk db actor id d).1.isUpdated = false) ∧
    (db.users.find? (fun u => u.id == id) = some target →
      (changePassword hashPw verifyPw db actor id oldPassword newPassword).1
          = .success →
      (actor.id = target.id ∨ actor.role ∈ [some Role.SUPER_ADMIN,
          some Role.ADMIN, some Role.DATA_ENTRY]) ∧
      ¬ (actor.role = some Role.ADMIN ∧ target.role = Role.SUPER_ADMIN) ∧
      ¬ (actor.role = some Role.DATA_ENTRY ∧
          target.role ∈ [Role.SUPER_ADMIN, Role.ADMIN]) ∧
      verifyPw oldPassword target.password = true) := by
  refine ⟨fun hp hact => ?_, fun hf hp ha htr => ?_, fun hf hs => ?_⟩
  · by_cases hv : updateDataInvalid emailOk d = true
    · simp [updateUser, hv, UpdateUserResult.isUpdated]
    · cases hf2 : db.users.find? (fun u => u.id == id) with
      | none => simp [updateUser, hv, hf2, UpdateUserResult.isUpdated]
      | some t =>
        rcases Option.isSome_iff_exists.mp hp with ⟨p, hdp⟩
        simp [updateUser, hv, hf2, hdp, hact, UpdateUserResult.isUpdated]
        split_ifs <;> rfl
  · by_cases hv : updateDataInvalid emailOk d = true
    · simp [updateUser, hv, UpdateUserResult.isUpdated]
    · rcases Option.isSome_iff_exists.mp hp with ⟨p, hdp⟩
      simp [updateUser, hv, hf, hdp, ha, htr, UpdateUserResult.isUpdated]
      split_ifs <;> rfl
  · by_cases hv : (oldPassword.length < 6 ∨ newPassword.length < 6)
    · rw [changePassword, if_pos hv] at hs
      cases hs
    · rw [changePassword, if_neg hv] at hs
      simp only [hf] at hs
      split_ifs at hs with h1 h2 h3 h4
      simp at hs
      refine ⟨?_, h2, h3, ?_⟩
      · rcases not_and_or.mp h1 with h | h
        · exact Or.inl (not_not.mp h)
        · exact Or.inr (not_not.mp h)
      · cases hb : verifyPw oldPassword target.password
        · exact absurd hb h4
        · rfl

/-- C8 witness: a DATA_ENTRY actor's password update through `updateUser`
is never applied, and the `changePassword` success characterization at a
concrete DATA_ENTRY-on-USER call. -/
theorem admin_password_change_policy_witness :
    (updateUser hashFn emailOkFn dbU uDEW 2
        ⟨none, none, none, some "newsecret", none⟩).1.isUpdated = false ∧
    ((uDEW.id = u2W.id ∨ uDEW.role ∈ [some Role.SUPER_ADMIN,
        some Role.ADMIN, some Role.DATA_ENTRY]) ∧
     ¬ (uDEW.role = some Role.ADMIN ∧ u2W.role = Role.SUPER_ADMIN) ∧
     ¬ (uDEW.role = some Role.DATA_ENTRY ∧
         u2W.role ∈ [Role.SUPER_ADMIN, Role.ADMIN]) ∧
     verifyPwFn "bobsecret" u2W.password = true) :=
  ⟨(admin_password_change_policy hashFn emailOkFn verifyPwFn dbU uDEW 2
      ⟨none, none, none, some "newsecret", none⟩ u2W "bobsecret"
      "newsecret").1 rfl (by decide),
   (admin_password_change_policy hashFn emailOkFn verifyPwFn dbU uDEW 2
      ⟨none, none, none, some "newsecret", none⟩ u2W "bobsecret"
      "newsecret").2.2 (by decide) (by decide)⟩

/-- C8 counterexample: a DATA_ENTRY actor who is not the target
successfully changes another USER-role user's password through
`changePassword`, though the claim permits only SUPER_ADMIN and ADMIN
actors. -/
theorem dataentry_changes_other_password :
    uDEW.role = some Role.DATA_ENTRY ∧ ¬ uDEW.id = u2W.id ∧
    (changePassword hashFn verifyPwFn dbU uDEW 2 "bobsecret"
        "newsecret").1 = ChangePasswordResult.success := by decide

/-!  Lemmas about the `findFirst … orderBy id desc` query. -/

lemma foldl_pickLatest_const (l : List EmailVerification)
    (rec : EmailVerification) (h : ∀ x ∈ l, x = rec) :
    l.foldl pickLatest (some rec) = some rec := by
  induction l with
  | nil => rfl
  | cons a t ih =>
    have ha : a = rec := h a (List.mem_cons_self a t)
    subst ha
    rw [List.foldl_cons, show pickLatest (some a) a = some a by
      simp [pickLatest]]
    exact ih (fun x hx => h x (List.mem_cons_of_mem a hx))

/-- When exactly one unconsumed record matches, the `orderBy id desc`
`findFirst` returns it. -/
lemma latestMatch_of_unique (codes : List EmailVerification) (uid : Nat)
    (c : String) (rec : EmailVerification) (hmem : rec ∈ codes)
    (hcand : isCandidate uid c rec = true)
    (huniq : ∀ x ∈ codes, isCandidate uid c x = true → x = rec) :
    latestMatch codes uid c = some rec := by
  unfold latestMatch
  have hmem' : rec ∈ codes.filter (isCandidate uid c) :=
    List.mem_filter.mpr ⟨hmem, hcand⟩
  have hall : ∀ x ∈ codes.filter (isCandidate uid c), x = rec := by
    intro x hx
    rcases List.mem_filter.mp hx with ⟨hx1, hx2⟩
    exact huniq x hx1 hx2
  cases hfl : codes.filter (isCandidate uid c) with
  | nil =>
    rw [hfl] at hmem'
    cases hmem'
  | cons a t =>
    rw [hfl] at hall
    have ha : a = rec := hall a (List.mem_cons_self a t)
    subst ha
    rw [List.foldl_cons, show pickLatest none a = some a from rfl]
    exact foldl_pickLatest_const t a
      (fun x hx => hall x (List.mem_cons_of_mem a hx))

/-- When no unconsumed record matches, the query returns nothing. -/
lemma latestMatch_none (codes : List EmailVerification) (uid : Nat)
    (c : String) (h : ∀ x ∈ codes, ¬ isCandidate uid c x = true) :
    latestMatch codes uid c = none := by
  unfold latestMatch
  rw [List.filter_eq_nil_iff.mpr h]
  rfl

lemma foldl_pickLatest_mem (l : List EmailVerification)
    (acc : Option EmailVerification) (r : EmailVerification)
    (h : l.foldl pickLatest acc = some r) : acc = some r ∨ r ∈ l := by
  induction l generalizing acc with
  | nil => exact Or.inl h
  | cons a t ih =>
    rw [List.foldl_cons] at h
    rcases ih (pickLatest acc a) h with h' | h'
    · cases acc with
      | none =>
        refine Or.inr ?_
        have : a = r := by
          simpa [pickLatest] using h'
        exact this ▸ List.mem_cons_self a t
      | some b =>
        by_cases hlt : b.id < a.id
        · refine Or.inr ?_
          have : a = r := by
            simpa [pickLatest, hlt] using h'
          exact this ▸ List.mem_cons_self a t
        · left
          simpa [pickLatest, hlt] using h'
    · exact Or.inr (List.mem_cons_of_mem a h')

/-- Whatever the query returns matches the `where` clause (in particular it
is unconsumed). -/
lemma latestMatch_isCandidate (codes : List EmailVerification) (uid : Nat)
    (c : String) (rec : EmailVerification)
    (h : latestMatch codes uid c = some rec) :
    isCandidate uid c rec = true := by
  unfold latestMatch at h
  rcases foldl_pickLatest_mem _ none rec h with h' | h'
  · cases h'
  · exact (List.mem_filter.mp h').2

/-- C10 (amended): when the record the code lookup finds (the most recent
unconsumed match) is expired, verify-email returns CodeExpired and leaves
the store — the record's `consumed = false` flag and the user — entirely
unchanged, so an identical resubmission reports CodeExpired again, and
reset-password behaves the same way. -/
theorem expired_code_frame (hashPw : String → String)
    (emailOk : String → Bool) (db : DB) (now : Int) (e c npw : String)
    (u : User) (rec : EmailVerification)
    (he : e ≠ "") (hc : c ≠ "")
    (hu : db.users.find? (fun v => v.email == some e) = some u)
    (hlm : latestMatch db.codes u.id c = some rec)
    (hexp : rec.expiresAt < now)
    (hok : emailOk e = true) (hlen : c.length = 6)
    (hnp : ¬ npw.length < 6) :
    rec.consumed = false ∧
    verifyEmail db now e c = (.codeExpired, db) ∧
    verifyEmail (verifyEmail db now e c).2 now e c = (.codeExpired, db) ∧
    resetPassword hashPw emailOk db now e c npw = (.codeExpired, db) := by
  have hguard : ¬ (c = "" ∨ e = "") := by
    rintro (h | h)
    · exact hc h
    · exact he h
  have hcons : rec.consumed = false := by
    have h := latestMatch_isCandidate db.codes u.id c rec hlm
    simp [isCandidate] at h
    tauto
  have hcall : verifyEmail db now e c = (.codeExpired, db) := by
    simp only [verifyEmail, if_neg hguard, hu, hlm, if_pos hexp]
  have hguard' : ¬ (emailOk e = false ∨ c.length ≠ 6 ∨ npw.length < 6) := by
    rintro (h | h | h)
    · rw [hok] at h
      cases h
    · exact h hlen
    · exact hnp h
  refine ⟨hcons, hcall, ?_, ?_⟩
  · rw [hcall]
    exact hcall
  · simp only [resetPassword, if_neg hguard', hu, hlm, if_pos hexp]

/-- C10 witness at a concrete expired record. -/
theorem expired_code_frame_witness :
    recExpW.consumed = false ∧
    verifyEmail dbExpW 2000 "a@x.com" "654321" = (.codeExpired, dbExpW) ∧
    verifyEmail (verifyEmail dbExpW 2000 "a@x.com" "654321").2 2000 "a@x.com"
      "654321" = (.codeExpired, dbExpW) ∧
    resetPassword hashFn emailOkFn dbExpW 2000 "a@x.com" "654321"
      "freshpass" = (.codeExpired, dbExpW) :=
  expired_code_frame hashFn emailOkFn dbExpW 2000 "a@x.com" "654321"
    "freshpass" uC1 recExpW (by decide) (by decide) (by decide) (by decide)
    (by decide) (by decide) (by decide) (by decide)

/-- C10 counterexample: `recOldW` is an unconsumed record whose `expiresAt`
has passed, yet verify-email with its code succeeds through the newer
record carrying the same code and flips the user's `emailVerified` flag,
instead of returning CodeExpired and leaving the user unchanged. -/
theorem expired_code_shadowed_by_newer :
    recOldW ∈ dbShadowW.codes ∧ recOldW.expiresAt < 100 ∧
    recOldW.consumed = false ∧
    (verifyEmail dbShadowW 100 "a@x.com" "123456").1
      ≠ VerifyResult.codeExpired ∧
    (verifyEmail dbShadowW 100 "a@x.com" "123456").2.users.map
      User.emailVerified = [true] := by decide

/-- C1 (amended): when the supplied code matches exactly one record — the
one the `orderBy id desc` lookup finds — and it is unconsumed and
unexpired, verify-email returns a token, and in the single resulting
state transition the record is consumed and the user's `emailVerified` is
true; a second call with the same code then fails with InvalidCode and
leaves the state unchanged, because a consumed record is never matched
again. -/
theorem verifyEmail_consume_once (db : DB) (now : Int) (e c : String)
    (u : User) (rec : EmailVerification)
    (he : e ≠ "") (hc : c ≠ "")
    (hu : db.users.find? (fun v => v.email == some e) = some u)
    (hmem : rec ∈ db.codes)
    (hcand : isCandidate u.id c rec = true)
    (huniq : ∀ x ∈ db.codes, isCandidate u.id c x = true → x = rec)
    (hfresh : ¬ rec.expiresAt < now) :
    (verifyEmail db now e c).1
      = .verified (signJwt u.id u.username) (sanitizeUser u u) ∧
    { rec with consumed := true } ∈ (verifyEmail db now e c).2.codes ∧
    (∀ v ∈ (verifyEmail db now e c).2.users, v.id = u.id →
      v.emailVerified = true) ∧
    verifyEmail (verifyEmail db now e c).2 now e c
      = (.invalidCode, (verifyEmail db now e c).2) := by
  have hguard : ¬ (c = "" ∨ e = "") := by
    rintro (h | h)
    · exact hc h
    · exact he h
  have hlm := latestMatch_of_unique db.codes u.id c rec hmem hcand huniq
  have hcall : verifyEmail db now e c
      = (.verified (signJwt u.id u.username) (sanitizeUser u u),
         { users := db.users.map (fun v =>
             if v.id = u.id then { v with emailVerified := true } else v),
           codes := db.codes.map (fun x =>
             if x.id = rec.id then { x with consumed := true } else x) }) := by
    simp only [verifyEmail, if_neg hguard, hu, hlm, if_neg hfresh]
  refine ⟨by rw [hcall], ?_, ?_, ?_⟩
  · rw [hcall]
    have himg : (fun x => if x.id = rec.id then { x with consumed := true }
        else x) rec = { rec with consumed := true } := by simp
    exact himg ▸ List.mem_map_of_mem _ hmem
  · intro v hv hid
    rw [hcall] at hv
    rcases List.mem_map.mp hv with ⟨w, hw, hwv⟩
    by_cases hwid : w.id = u.id
    · rw [if_pos hwid] at hwv
      rw [← hwv]
    · rw [if_neg hwid] at hwv
      subst hwv
      exact absurd hid hwid
  · rw [hcall]
    have hp : (fun v : User => ((if v.id = u.id then
        { v with emailVerified := true } else v).email == some e))
        = (fun v : User => v.email == some e) := by
      funext v
      by_cases h : v.id = u.id <;> simp [h]
    have hfind : (db.users.map (fun v =>
        if v.id = u.id then { v with emailVerified := true } else v)).find?
          (fun v => v.email == some e)
        = some { u with emailVerified := true } := by
      rw [List.find?_map]
      show (db.users.find? ((fun v : User => v.email == some e) ∘ fun v =>
        if v.id = u.id then { v with emailVerified := true } else v)).map
          _ = _
      have : ((fun v : User => v.email == some e) ∘ fun v =>
          if v.id = u.id then { v with emailVerified := true } else v)
          = (fun v : User => v.email == some e) := by
        funext v
        by_cases h : v.id = u.id <;> simp [h]
      rw [this, hu]
      simp
    have hnone : latestMatch (db.codes.map (fun x =>
        if x.id = rec.id then { x with consumed := true } else x))
        ({ u with emailVerified := true } : User).id c = none := by
      apply latestMatch_none
      intro x' hx'
      rcases List.mem_map.mp hx' with ⟨x, hx, hxx⟩
      by_cases hxid : x.id = rec.id
      · rw [if_pos hxid] at hxx
        subst hxx
        simp [isCandidate]
      · rw [if_neg hxid] at hxx
        subst hxx
        intro hcx
        have hxr : x = rec := huniq x hx (by simpa using hcx)
        exact hxid (by rw [hxr])
    simp only [verifyEmail, if_neg hguard, hfind, hnone]

/-- C1 witness at a concrete single-match unexpired state. -/
theorem verifyEmail_consume_once_witness :
    (verifyEmail dbExpW 0 "a@x.com" "654321").1
      = VerifyResult.verified (signJwt uC1.id uC1.username)
          (sanitizeUser uC1 uC1) ∧
    { recExpW with consumed := true } ∈
      (verifyEmail dbExpW 0 "a@x.com" "654321").2.codes ∧
    verifyEmail (verifyEmail dbExpW 0 "a@x.com" "654321").2 0 "a@x.com"
        "654321"
      = (.invalidCode, (verifyEmail dbExpW 0 "a@x.com" "654321").2) :=
  ⟨(verifyEmail_consume_once dbExpW 0 "a@x.com" "654321" uC1 recExpW
      (by decide) (by decide) (by decide) (by decide) (by decide)
      (by decide) (by decide)).1,
   (verifyEmail_consume_once dbExpW 0 "a@x.com" "654321" uC1 recExpW
      (by decide) (by decide) (by decide) (by decide) (by decide)
      (by decide) (by decide)).2.1,
   (verifyEmail_consume_once dbExpW 0 "a@x.com" "654321" uC1 recExpW
      (by decide) (by decide) (by decide) (by decide) (by decide)
      (by decide) (by decide)).2.2.2⟩

/-- C1 counterexample: with two unconsumed, unexpired records for the same
user carrying the same code, verify-email consumes only the newer record —
the quantified older matching record `recOldW` is not marked consumed —
and a second call with the same code succeeds instead of failing with
InvalidCode. -/
theorem verifyEmail_second_call_succeeds :
    recOldW ∈ dbShadowW.codes ∧
    isCandidate uC1.id "123456" recOldW = true ∧
    ¬ recOldW.expiresAt < 0 ∧
    { recOldW with consumed := true } ∉
      (verifyEmail dbShadowW 0 "a@x.com" "123456").2.codes ∧
    (verifyEmail (verifyEmail dbShadowW 0 "a@x.com" "123456").2 0 "a@x.com"
        "123456").1 ≠ VerifyResult.invalidCode := by decide

end Rawa
